import Mathlib

/-!
Verification of the session-orchestrator backend of the mock-interview
server.  The definitions below are a shallow embedding of the JavaScript
sources:

* `src/project/src/services/socketService.js` — the per-connection
  orchestrator (join, audio_response pipeline, end, disconnect);
* `src/project/src/services/sentimentAnalysisService.js` — sentiment
  labelling;
* the HTTP route file exporting `POST /start` — interview creation with
  the ongoing-interview guard.

Modelling conventions:

* Times are integer epoch milliseconds (`Int`); JavaScript's real-number
  arithmetic on them is modelled over `ℚ`.
* The external collaborators (speech-to-text, sentiment API, question
  generation, speech synthesis, MongoDB writes) are network calls; each
  reachable call site is given an oracle of type `Except Unit α`
  describing the outcome the handler observes at that `await`: `.error`
  for a thrown rejection and `.ok` for a resolved value.  The
  speech-to-text service resolves to `null` or to its result record
  `{ transcription, confidence, words, languageCode }`, never to a bare
  string; the `audio_response` handler then calls `.trim()` on that
  record, which throws, so the handler code past its transcription check
  is unreachable and has no oracles (see `audioResponse`).
* The model follows a single socket attached to a single persisted
  interview document (the claims quantify over one session/interview at
  a time); `OState.db` is the persisted document and `OState.session`
  is the `activeInterviews` entry for the socket.  All `$push` /
  `findByIdAndUpdate` calls in the source target
  `session.interviewId`, which for every reachable state is the id of
  that single document.
* Event payload fields that no claim inspects (panelists, transcription
  echoes, previousResponse, timeElapsed seconds) are elided from the
  event constructors; the event kinds and their ordering are kept.
-/

namespace MockInterview

/-- Drop leading whitespace characters from a character list. -/
def dropWhitespace : List Char → List Char
  | [] => []
  | c :: cs => if c.isWhitespace then dropWhitespace cs else c :: cs

/-- JavaScript `String.prototype.trim`: strip whitespace from both ends of
the string.  (Lean's own `String.trim` is defined by well-founded recursion
on substrings; this structurally recursive form has the same meaning and
lets concrete runs be evaluated.) -/
def jsTrim (s : String) : String :=
  ⟨dropWhitespace ((dropWhitespace s.data.reverse).reverse)⟩

/-- Status of a persisted interview document (`status ∈ {in_progress, completed}`). -/
inductive InterviewStatus where
  | inProgress
  | completed
  deriving DecidableEq

/-- A generated interview question.  The generator services return an object
whose only field the orchestrator forwards; the text stands for the whole
payload. -/
structure Question where
  text : String
  deriving DecidableEq

/-- The `sentiment` sub-record produced by
`sentimentAnalysisService.analyzeSentiment` (score, magnitude, label,
confidence). -/
structure SentimentSummary where
  score : ℚ
  magnitude : ℚ
  label : String
  confidence : ℚ
  deriving DecidableEq

/-- The document-level sentiment returned by the Google language API call
inside `analyzeSentiment` (an external collaborator). -/
structure ApiSentiment where
  score : ℚ
  magnitude : ℚ
  deriving DecidableEq

/-- `getSentimentLabel` (sentimentAnalysisService.js lines 100-104):
`score >= 0.25 → 'positive'`, `score <= -0.25 → 'negative'`, else `'neutral'`. -/
def getSentimentLabel (score : ℚ) : String :=
  if score ≥ 1/4 then "positive"
  else if score ≤ -(1/4) then "negative"
  else "neutral"

/-- `calculateConfidence` (sentimentAnalysisService.js lines 106-110):
`Math.min(1.0, (|score| * magnitude) / 2)`. -/
def calculateConfidence (score magnitude : ℚ) : ℚ :=
  min 1 (|score| * magnitude / 2)

/-- The sentiment slice of `analyzeSentiment` (sentimentAnalysisService.js
lines 12-98): empty text throws; otherwise the returned analysis carries the
API score and magnitude together with `label := getSentimentLabel score` and
`confidence := calculateConfidence score magnitude`.  A thrown API call is a
`.error` outcome at the orchestrator's `await` and is handled there. -/
def analyzeSentiment (text : String) (api : ApiSentiment) : Except Unit SentimentSummary :=
  if (jsTrim text).length = 0 then Except.error ()
  else Except.ok
    { score := api.score
      magnitude := api.magnitude
      label := getSentimentLabel api.score
      confidence := calculateConfidence api.score api.magnitude }

/-- A persisted response (`socketService.js` lines 142-148). -/
structure Response where
  questionId : Nat
  transcription : String
  sentiment : SentimentSummary
  timestamp : Int
  responseTime : Nat
  deriving DecidableEq

/-- The persisted interview aggregate.  Fields the claims never inspect
(type, difficulty, focusAreas, dafId, panelists) are carried by the external
collaborators and elided here. -/
structure Interview where
  id : Nat
  userId : Nat
  status : InterviewStatus
  startedAt : Int
  duration : Nat
  endedAt : Option Int
  actualDuration : Option Int
  questions : List Question
  responses : List Response
  deriving DecidableEq

/-- The `activeInterviews` entry stored at join (`socketService.js` lines
78-84).  `interview` is the document fetched at join time; the source keeps
a reference to that fetched object and never refreshes it (the `$push`
updates go to the database through `findByIdAndUpdate`), so it is a
join-time snapshot. -/
structure Session where
  interviewId : Nat
  userId : Nat
  interview : Interview
  currentQuestionIndex : Nat
  isProcessing : Bool
  deriving DecidableEq

/-- Orchestrator state for one socket over one persisted interview
document. -/
structure OState where
  uid : Nat
  db : Interview
  session : Option Session
  deriving DecidableEq

/-- Outbound socket events, payloads restricted to the fields the claims
inspect. -/
inductive Event where
  | error (msg : String)
  | processingResponse (status : String)
  | interviewState (questionNumber : Nat) (timeElapsed : Int)
  | firstQuestion (q : Question) (questionNumber : Nat) (audio : String)
  | nextQuestion (q : Question) (questionNumber : Nat) (audio : String)
  | interviewEnded (interviewId : Nat) (totalQuestions : Nat) (duration : Int)
  deriving DecidableEq

/-- Recognizer for `next_question` events. -/
def Event.isNextQuestion : Event → Bool
  | .nextQuestion _ _ _ => true
  | _ => false

/-- Recognizer for `interview_ended` events. -/
def Event.isInterviewEnded : Event → Bool
  | .interviewEnded _ _ _ => true
  | _ => false

/-- Recognizer for `error` events. -/
def Event.isError : Event → Bool
  | .error _ => true
  | _ => false

/-- `(new Date() - startedAt) / (1000 * 60)` — elapsed minutes as a real
number (socketService.js line 265).  Written with `Rat.divInt` so that
concrete runs evaluate; `timeElapsedMinutes_eq_div` below proves it equal
to the literal `((now : ℚ) - startedAt) / (1000 * 60)`. -/
def timeElapsedMinutes (startedAt now : Int) : ℚ :=
  Rat.divInt (now - startedAt) (1000 * 60)

/-- JavaScript `Math.round`: round half toward positive infinity. -/
def jsRound (q : ℚ) : Int :=
  ⌊q + 1/2⌋

/-- `const maxQuestions = 15; // Maximum questions per interview`
(socketService.js line 266). -/
def maxQuestions : Nat := 15

/-- `generateNextQuestion` (socketService.js lines 260-292): returns `null`
(modelled `Except.ok none`) when
`timeElapsed >= interview.duration || interview.questions.length >= maxQuestions`,
where `interview` is the session's join-time snapshot; otherwise calls the
question-generation collaborator (`gen` oracle) and rethrows its failure
(its `catch` logs and rethrows). -/
def generateNextQuestion (s : Session) (now : Int) (gen : Except Unit Question) :
    Except Unit (Option Question) :=
  if timeElapsedMinutes s.interview.startedAt now ≥ (s.interview.duration : ℚ)
      ∨ s.interview.questions.length ≥ maxQuestions then
    Except.ok none
  else
    match gen with
    | Except.error e => Except.error e
    | Except.ok q => Except.ok (some q)

/-- `endInterview` (socketService.js lines 294-324), on the path where the
`findByIdAndUpdate` resolves: set `status='completed'`, `endedAt=now`,
`actualDuration=Math.round((now - session.interview.startedAt)/(1000*60))`,
delete the session from `activeInterviews`, and emit `interview_ended` with
`totalQuestions = session.interview.questions.length + session.currentQuestionIndex`
and the same rounded duration.  There is no guard on an
already-`completed` document.  The thrown-update path is modelled at each
call site (the caller's `catch` runs with the state unchanged, since the
failed update precedes every other effect). -/
def endInterviewRun (st : OState) (s : Session) (now : Int) : OState × List Event :=
  ({ st with
      db := { st.db with
        status := InterviewStatus.completed
        endedAt := some now
        actualDuration := some (jsRound (timeElapsedMinutes s.interview.startedAt now)) }
      session := none },
   [Event.interviewEnded s.interviewId
      (s.interview.questions.length + s.currentQuestionIndex)
      (jsRound (timeElapsedMinutes s.interview.startedAt now))])

/-- The value `speechToTextService.transcribeAudio` resolves to
(`src/unnamed/part_000` lines 45-84): the record
`{ transcription, confidence, words, languageCode }` built from the
recognition results.  The word list is elided; no claim inspects it.  When
the API returns no results the service resolves to `null` instead
(modelled as `none` at the call site), and on an internal error it rejects. -/
structure TranscriptionResult where
  transcription : String
  confidence : ℚ
  languageCode : String
  deriving DecidableEq

/-- Outcome observed at the one reachable suspension point of an
`audio_response` handling: the `transcribeAudio` call, which rejects
(`Except.error`), resolves to `null` (`Except.ok none`), or resolves to
its result record.  The later stage collaborators (sentiment, question
generation, synthesis) and database writes of the handler are unreachable
— see `audioResponse` — so no outcome is modelled for them. -/
structure PipelineOracles where
  transcribe : Except Unit (Option TranscriptionResult)

/-- The `catch` block of the `audio_response` handler (socketService.js
lines 190-198): emit the error event, then re-read the session from
`activeInterviews` and clear `isProcessing` when it is still present. -/
def catchAudio (st : OState) (evs : List Event) : OState × List Event :=
  let evs := evs ++ [Event.error "Failed to process response"]
  match st.session with
  | none => (st, evs)
  | some s => ({ st with session := some { s with isProcessing := false } }, evs)

/-- The `audio_response` handler (socketService.js lines 108-199): guard,
latch set, `processing_response{transcribing}`, then
`await transcribeAudio(audioData)` followed by
`if (!transcription || transcription.trim().length === 0)`.

* a rejected call lands in the `catch` block;
* a `null` resolution makes `!transcription` true: the handler emits the
  could-not-transcribe error, clears the latch and returns;
* a resolved result is the record returned by `transcribeAudio`, not a
  string, so `transcription.trim` is undefined and the call
  `transcription.trim()` throws a `TypeError`, which lands in the `catch`
  block.

Consequently the remainder of the handler — the sentiment call, the
response `$push` (line 151), `generateNextQuestion`, synthesis, the
question `$push` and the `next_question` emission, and the
pipeline-reached `endInterview` (lines 133-188) — is unreachable and has
no corresponding branch here.  The `catch` block clears the latch on the
paths that reach it. -/
def audioResponse (st : OState) (now : Int) (questionId : Nat) (responseTime : Nat)
    (o : PipelineOracles) : OState × List Event :=
  match st.session with
  | none => (st, [Event.error "Invalid session or already processing"])
  | some s0 =>
    if s0.isProcessing then
      (st, [Event.error "Invalid session or already processing"])
    else
      let s := { s0 with isProcessing := true }
      let st := { st with session := some s }
      let evs := [Event.processingResponse "transcribing"]
      match o.transcribe with
      | Except.error _ => catchAudio st evs
      | Except.ok none =>
        ({ st with session := some { s with isProcessing := false } },
         evs ++ [Event.error "Could not transcribe audio. Please try again."])
      | Except.ok (some _) => catchAudio st evs

/-- Outcomes observed at the suspension points of a `join_interview`
handling: the interview fetch (its rejection reaches the outer `catch`),
and the three calls of `generateAndSendFirstQuestion`. -/
structure JoinOracles where
  fetchThrow : Bool
  generateFirst : Except Unit Question
  synthesizeFirst : Except Unit String
  pushFirst : Except Unit Unit

/-- `generateAndSendFirstQuestion` (socketService.js lines 232-258):
generate, synthesize, `$push` the question, emit `first_question` with
`questionNumber: 1`; its `catch` emits an error event.  It never touches
the stored session. -/
def generateAndSendFirstQuestion (st : OState) (o : JoinOracles) : OState × List Event :=
  match o.generateFirst with
  | Except.error _ => (st, [Event.error "Failed to generate first question"])
  | Except.ok q =>
    match o.synthesizeFirst with
    | Except.error _ => (st, [Event.error "Failed to generate first question"])
    | Except.ok audio =>
      match o.pushFirst with
      | Except.error _ => (st, [Event.error "Failed to generate first question"])
      | Except.ok _ =>
        ({ st with db := { st.db with questions := st.db.questions ++ [q] } },
         [Event.firstQuestion q 1 audio])

/-- The `join_interview` handler (socketService.js lines 58-105): fetch the
interview by `{_id, userId, status: 'in_progress'}`; on no match emit an
error; otherwise store the session with
`currentQuestionIndex = interview.questions.length` and `isProcessing: false`,
then either run first-question generation (zero questions) or emit the
current `interview_state`. -/
def joinInterview (st : OState) (interviewId : Nat) (now : Int) (o : JoinOracles) :
    OState × List Event :=
  if o.fetchThrow then (st, [Event.error "Failed to join interview session"])
  else if st.db.id = interviewId ∧ st.db.userId = st.uid
      ∧ st.db.status = InterviewStatus.inProgress then
    let s : Session :=
      { interviewId := interviewId, userId := st.uid, interview := st.db,
        currentQuestionIndex := st.db.questions.length, isProcessing := false }
    let st := { st with session := some s }
    if st.db.questions.length = 0 then
      generateAndSendFirstQuestion st o
    else
      (st, [Event.interviewState st.db.questions.length
              (jsRound (Rat.divInt (now - st.db.startedAt) 1000))])
  else
    (st, [Event.error "Invalid or inactive interview session"])

/-- The `end_interview` handler (socketService.js lines 202-212): run
`endInterview` when a session exists; a thrown database update reaches the
handler's `catch` before any other effect of `endInterview`. -/
def endRequest (st : OState) (now : Int) (endThrow : Bool) : OState × List Event :=
  match st.session with
  | none => (st, [])
  | some s =>
    if endThrow then (st, [Event.error "Failed to end interview"])
    else endInterviewRun st s now

/-- One inbound socket event together with the outcomes of the external
calls its handling performs. -/
inductive Op where
  | join (interviewId : Nat) (now : Int) (o : JoinOracles)
  | answer (now : Int) (questionId : Nat) (responseTime : Nat) (o : PipelineOracles)
  | endReq (now : Int) (endThrow : Bool)
  | disconnect

/-- Dispatch one inbound event (the `socket.on` registrations of
`handleConnection`); `disconnect` only deletes the session
(socketService.js lines 215-218). -/
def step (st : OState) : Op → OState × List Event
  | Op.join iid now o => joinInterview st iid now o
  | Op.answer now qid rt o => audioResponse st now qid rt o
  | Op.endReq now thr => endRequest st now thr
  | Op.disconnect => ({ st with session := none }, [])

/-- Run a sequence of inbound events, keeping the state. -/
def execState (st : OState) : List Op → OState
  | [] => st
  | op :: ops => execState (step st op).1 ops

/-- The interview document created by `POST /start` (route file lines
56-87): `status: 'in_progress'`, `startedAt: now`, empty `questions` and
`responses`. -/
def newInterview (uid iid : Nat) (dur : Nat) (now : Int) : Interview :=
  { id := iid, userId := uid, status := InterviewStatus.inProgress,
    startedAt := now, duration := dur, endedAt := none, actualDuration := none,
    questions := [], responses := [] }

/-- Orchestrator state for a freshly created interview before any socket
event. -/
def initState (uid iid : Nat) (startedAt : Int) (dur : Nat) : OState :=
  { uid := uid, db := newInterview uid iid dur startedAt, session := none }

/-- `Interview.findOne({userId, status: 'in_progress'})` of the `/start`
route (lines 39-43) as a predicate over the interview collection. -/
def hasOngoing (db : List Interview) (uid : Nat) : Bool :=
  db.any fun i => decide (i.userId = uid ∧ i.status = InterviewStatus.inProgress)

/-- Number of in-progress interviews a user owns. -/
def countOngoing (db : List Interview) (uid : Nat) : Nat :=
  (db.filter fun i => decide (i.userId = uid ∧ i.status = InterviewStatus.inProgress)).length

/-- `POST /start` (route file lines 19-110): request-body validation
failure → 400; missing DAF → 400; an ongoing in-progress interview for the
requesting user → 400 with no write; otherwise save a new in-progress
interview and answer 201.  `valid` and `hasDaf` are the outcomes of the
Joi validation and the DAF lookup. -/
def startInterview (db : List Interview) (uid : Nat) (valid hasDaf : Bool)
    (iid dur : Nat) (now : Int) : List Interview × Nat :=
  if valid = false then (db, 400)
  else if hasDaf = false then (db, 400)
  else if hasOngoing db uid then (db, 400)
  else (db ++ [newInterview uid iid dur now], 201)

/-- The single-flight latch is clear: no stored session has
`isProcessing = true`. -/
def latchClear : Option Session → Bool
  | none => true
  | some s => !s.isProcessing

/-- Both persisted sequences of `d'` extend those of `d` by a suffix. -/
def DbExtends (d d' : Interview) : Prop :=
  (∃ t, d'.questions = d.questions ++ t) ∧ (∃ t, d'.responses = d.responses ++ t)

/-! ### Example values used by the witness theorems -/

/-- A sample generated question. -/
def qEx : Question := ⟨"Tell me about yourself."⟩

/-- A second sample generated question. -/
def qEx2 : Question := ⟨"Why do you want to join the civil services?"⟩

/-- Join oracles where every external call resolves. -/
def okJoinO : JoinOracles := ⟨false, Except.ok qEx, Except.ok "a", Except.ok ()⟩

/-- A resolved transcription: the record `transcribeAudio` returns. -/
def trEx : TranscriptionResult := ⟨"my answer", 1, "en-IN"⟩

/-- Pipeline oracle where the transcription call resolves to its result
record. -/
def okPipeO : PipelineOracles := ⟨Except.ok (some trEx)⟩

/-- Pipeline oracle where the transcription call resolves to a record
whose transcription text is empty. -/
def emptyTransO : PipelineOracles := ⟨Except.ok (some ⟨"", 0, "en-IN"⟩)⟩

/-- A freshly started interview document: user 7, id 1, 30 minutes,
started at epoch 0. -/
def dbEx : Interview := newInterview 7 1 30 0

/-- A quiescent session over `dbEx`. -/
def sessEx : Session := ⟨1, 7, dbEx, 0, false⟩

/-- First `endInterview` call on the example state, ten minutes in. -/
def c7One : OState × List Event := endInterviewRun ⟨7, dbEx, some sessEx⟩ sessEx 600000

/-- Second `endInterview` call on the already-completed result, twenty
minutes in. -/
def c7Two : OState × List Event := endInterviewRun c7One.1 sessEx 1200000

/-- An interview document on which fifteen questions have been asked. -/
def db15 : Interview := { dbEx with questions := List.replicate 15 qEx }

/-- A quiescent session whose join-time snapshot holds the fifteen
questions of `db15`. -/
def sess15 : Session := ⟨1, 7, db15, 15, false⟩

/-- Handling of the answer to the fifteenth question, submitted one minute
in, with the transcription call resolving to its result record. -/
def c6Run : OState × List Event := audioResponse ⟨7, db15, some sess15⟩ 60000 15 0 okPipeO

/-! ### Helper lemmas -/

/-- The `divInt` form of the elapsed-minutes computation agrees with the
literal division of the source. -/
theorem timeElapsedMinutes_eq_div (startedAt now : Int) :
    timeElapsedMinutes startedAt now = ((now : ℚ) - (startedAt : ℚ)) / (1000 * 60) := by
  rw [timeElapsedMinutes, Rat.divInt_eq_div]
  push_cast
  ring

/-- The catch block of the audio handler always leaves the stored session
(if any) with a cleared latch. -/
theorem catchAudio_latch (st : OState) (evs : List Event) :
    latchClear (catchAudio st evs).1.session = true := by
  rcases h : st.session with _ | s <;> simp [catchAudio, latchClear, h]

/-- Updating `isProcessing` to the value it already has is the identity. -/
theorem session_eta (s : Session) (h : s.isProcessing = false) :
    ({ s with isProcessing := false } : Session) = s := by
  cases s
  simp_all

/-- The catch block of the audio handler never touches the persisted
document. -/
theorem catchAudio_db (st : OState) (evs : List Event) :
    (catchAudio st evs).1.db = st.db := by
  rcases h : st.session with _ | s <;> simp [catchAudio, h]

/-- One `audio_response` handling never touches the persisted document:
every reachable path (guard, rejected call, `null` resolution, the
`TypeError` at `transcription.trim()`) aborts before the response push at
socketService.js line 151. -/
theorem audioResponse_db (st : OState) (now : Int) (qid rt : Nat) (o : PipelineOracles) :
    (audioResponse st now qid rt o).1.db = st.db := by
  rcases hs : st.session with _ | s0
  · simp [audioResponse, hs]
  · by_cases hp : s0.isProcessing
    · simp [audioResponse, hs, hp]
    · obtain ⟨tr⟩ := o
      rcases tr with e | topt
      · simp [audioResponse, hs, hp, catchAudio_db]
      · rcases topt with _ | rec
        · simp [audioResponse, hs, hp]
        · simp [audioResponse, hs, hp, catchAudio_db]

/-- One `join_interview` handling never touches `responses`, only ever
appends to `questions` (the single possible push is the first question,
when the sequence is empty), and keeps `questions` within one element. -/
theorem joinInterview_db (st : OState) (iid : Nat) (now : Int) (o : JoinOracles) :
    (∃ t, (joinInterview st iid now o).1.db.questions = st.db.questions ++ t)
    ∧ (joinInterview st iid now o).1.db.responses = st.db.responses
    ∧ (st.db.questions.length ≤ 1 → (joinInterview st iid now o).1.db.questions.length ≤ 1) := by
  obtain ⟨ft, gf, sf, pf⟩ := o
  cases ft
  · by_cases hm : st.db.id = iid ∧ st.db.userId = st.uid
        ∧ st.db.status = InterviewStatus.inProgress
    · by_cases hlen : st.db.questions.length = 0
      · cases gf with
        | error e =>
          simp [joinInterview, hm, hlen, generateAndSendFirstQuestion]
        | ok q =>
          cases sf with
          | error e =>
            simp [joinInterview, hm, hlen, generateAndSendFirstQuestion]
          | ok audio =>
            cases pf with
            | error e =>
              simp [joinInterview, hm, hlen, generateAndSendFirstQuestion]
            | ok u =>
              refine ⟨⟨[q], ?_⟩, ?_, fun _ => ?_⟩ <;>
                simp [joinInterview, hm, hlen, generateAndSendFirstQuestion]
      · simp [joinInterview, hm, hlen]
    · simp [joinInterview, hm]
  · simp [joinInterview]

/-- One `end_interview` handling only updates status fields: the persisted
sequences are untouched. -/
theorem endRequest_db (st : OState) (now : Int) (thr : Bool) :
    (endRequest st now thr).1.db.questions = st.db.questions
    ∧ (endRequest st now thr).1.db.responses = st.db.responses := by
  rcases hs : st.session with _ | s
  · simp [endRequest, hs]
  · cases thr
    · simp [endRequest, hs, endInterviewRun]
    · simp [endRequest, hs]

/-- Per-event summary: every inbound event leaves `responses` unchanged,
only appends to `questions`, and keeps the question count within one. -/
theorem step_db (st : OState) (op : Op) :
    (∃ t, (step st op).1.db.questions = st.db.questions ++ t)
    ∧ (step st op).1.db.responses = st.db.responses
    ∧ (st.db.questions.length ≤ 1 → (step st op).1.db.questions.length ≤ 1) := by
  cases op with
  | join iid now o => exact joinInterview_db st iid now o
  | answer now qid rt o =>
    rw [step, audioResponse_db st now qid rt o]
    exact ⟨⟨[], (List.append_nil _).symm⟩, rfl, fun h => h⟩
  | endReq now thr =>
    obtain ⟨hq, hr⟩ := endRequest_db st now thr
    rw [step, hq, hr]
    exact ⟨⟨[], (List.append_nil _).symm⟩, rfl, fun h => h⟩
  | disconnect => exact ⟨⟨[], (List.append_nil _).symm⟩, rfl, fun h => h⟩

/-- Along every run from a state with no responses and at most one
question — as `POST /start` creates interviews — both facts persist. -/
theorem execState_inv (ops : List Op) (st : OState)
    (hr : st.db.responses = []) (hq : st.db.questions.length ≤ 1) :
    (execState st ops).db.responses = [] ∧ (execState st ops).db.questions.length ≤ 1 := by
  induction ops generalizing st with
  | nil => exact ⟨hr, hq⟩
  | cons op ops ih =>
    obtain ⟨_, hr2, hq2⟩ := step_db st op
    exact ih (step st op).1 (hr2.trans hr) (hq2 hq)

/-! ### Claims -/

/-- Claim C1: every pipeline run started by the `audio_response` handler —
one that passed the `!session || session.isProcessing` guard — ends with
the stored session's `isProcessing` flag false, on every exit path the
source has: a rejected transcription call, a `null` resolution, and the
`TypeError` thrown at `transcription.trim()` on a resolved result record
(the stages past transcription being unreachable, these are all the exit
paths; no path leaves the latch permanently true). -/
theorem audio_latch_cleared (uid : Nat) (db : Interview) (s0 : Session) (now : Int)
    (qid rt : Nat) (o : PipelineOracles) (hp : s0.isProcessing = false) :
    latchClear (audioResponse ⟨uid, db, some s0⟩ now qid rt o).1.session = true := by
  obtain ⟨tr⟩ := o
  cases tr with
  | error e => simp [audioResponse, hp, catchAudio_latch]
  | ok topt =>
    cases topt with
    | none => simp [audioResponse, hp, latchClear]
    | some rec => simp [audioResponse, hp, catchAudio_latch]

/-- Witness for C1 at a concrete quiescent session with all stages
resolving. -/
theorem audio_latch_cleared_witness :
    sessEx.isProcessing = false ∧
    latchClear (audioResponse ⟨7, dbEx, some sessEx⟩ 60000 1 0 okPipeO).1.session = true :=
  ⟨rfl, audio_latch_cleared 7 dbEx sessEx 60000 1 0 okPipeO rfl⟩

/-- Claim C2: when no session is stored for the socket, or the stored
session has `isProcessing = true`, the `audio_response` handler emits
exactly the one error event and returns the state unchanged — no response
or question appended, no session mutation, no other event. -/
theorem audio_guard_no_side_effects (uid : Nat) (db : Interview) (sess : Option Session)
    (now : Int) (qid rt : Nat) (o : PipelineOracles)
    (h : ∀ s, sess = some s → s.isProcessing = true) :
    audioResponse ⟨uid, db, sess⟩ now qid rt o
      = (⟨uid, db, sess⟩, [Event.error "Invalid session or already processing"]) := by
  cases sess with
  | none => rfl
  | some s => simp [audioResponse, h s rfl]

/-- Witness for C2 at the missing-session input. -/
theorem audio_guard_no_side_effects_witness :
    (∀ s, (none : Option Session) = some s → s.isProcessing = true) ∧
    audioResponse ⟨7, dbEx, none⟩ 60000 1 0 okPipeO
      = (⟨7, dbEx, none⟩, [Event.error "Invalid session or already processing"]) :=
  ⟨fun _ h => Option.noConfusion h,
   audio_guard_no_side_effects 7 dbEx none 60000 1 0 okPipeO (fun _ h => Option.noConfusion h)⟩

/-- Claim C4: for a submitted answer whose transcription fails (the call
rejects) or whose transcription result is empty (`null`, or a result
record carrying a whitespace-only transcription text — on which the
handler's `transcription.trim()` call throws), the `audio_response`
handler emits an error event and terminates with the state exactly as
before the event: no `Response` appended, no other mutation, and the
session's `isProcessing` flag false (it equals the original quiescent
session). -/
theorem transcription_failure_aborts (uid : Nat) (db : Interview) (s0 : Session) (now : Int)
    (qid rt : Nat) (o : PipelineOracles) (hp : s0.isProcessing = false)
    (ht : o.transcribe = Except.error () ∨ o.transcribe = Except.ok none ∨
          ∃ r, o.transcribe = Except.ok (some r) ∧ (jsTrim r.transcription).length = 0) :
    (audioResponse ⟨uid, db, some s0⟩ now qid rt o).1 = ⟨uid, db, some s0⟩ ∧
    (audioResponse ⟨uid, db, some s0⟩ now qid rt o).2.any Event.isError = true := by
  rcases ht with h | h | ⟨r, h, htr⟩
  · exact ⟨by simp [audioResponse, hp, h, catchAudio, session_eta s0 hp],
           by simp [audioResponse, hp, h, catchAudio, Event.isError]⟩
  · exact ⟨by simp [audioResponse, hp, h, session_eta s0 hp],
           by simp [audioResponse, hp, h, Event.isError]⟩
  · exact ⟨by simp [audioResponse, hp, h, catchAudio, session_eta s0 hp],
           by simp [audioResponse, hp, h, catchAudio, Event.isError]⟩

/-- Witness for C4 at a resolved result record whose transcription text is
empty. -/
theorem transcription_failure_aborts_witness :
    (sessEx.isProcessing = false
      ∧ emptyTransO.transcribe = Except.ok (some ⟨"", 0, "en-IN"⟩)
      ∧ (jsTrim ("" : String)).length = 0) ∧
    ((audioResponse ⟨7, dbEx, some sessEx⟩ 60000 1 0 emptyTransO).1 = ⟨7, dbEx, some sessEx⟩ ∧
     (audioResponse ⟨7, dbEx, some sessEx⟩ 60000 1 0 emptyTransO).2.any Event.isError = true) :=
  ⟨⟨rfl, rfl, by decide⟩,
   transcription_failure_aborts 7 dbEx sessEx 60000 1 0 emptyTransO rfl
     (Or.inr (Or.inr ⟨⟨"", 0, "en-IN"⟩, rfl, by decide⟩))⟩

/-- Claim C5: the continuation decision of `generateNextQuestion` is the
pure function of start time, current time, duration and question count
with ceiling 15: it ends (returns the `null` question) exactly when
elapsed minutes are at least the duration or the question count is at
least 15 — whichever generator outcome is supplied — and otherwise
continues with the generated question. -/
theorem lifecycle_policy_end_iff (s : Session) (now : Int) (gen : Except Unit Question) :
    (generateNextQuestion s now gen = Except.ok none ↔
      timeElapsedMinutes s.interview.startedAt now ≥ (s.interview.duration : ℚ)
        ∨ s.interview.questions.length ≥ 15)
    ∧ (∀ q, gen = Except.ok q →
        ¬(timeElapsedMinutes s.interview.startedAt now ≥ (s.interview.duration : ℚ)
            ∨ s.interview.questions.length ≥ 15) →
        generateNextQuestion s now gen = Except.ok (some q)) := by
  by_cases hc : timeElapsedMinutes s.interview.startedAt now ≥ (s.interview.duration : ℚ)
      ∨ s.interview.questions.length ≥ 15
  · refine ⟨⟨fun _ => hc, fun _ => ?_⟩, fun q _ hnc => absurd hc hnc⟩
    simp [generateNextQuestion, maxQuestions, hc]
  · refine ⟨⟨fun h => ?_, fun h => absurd h hc⟩, fun q hq _ => ?_⟩
    · rcases gen with e | q <;> simp [generateNextQuestion, maxQuestions, hc] at h
    · simp [generateNextQuestion, maxQuestions, hc, hq]

/-- Witness for C5: with 15 questions already asked and zero elapsed time
the decision is End. -/
theorem lifecycle_policy_end_iff_witness :
    generateNextQuestion ⟨1, 7, { dbEx with questions := List.replicate 15 qEx }, 15, false⟩ 0
      (Except.ok qEx2) = Except.ok none :=
  (lifecycle_policy_end_iff ⟨1, 7, { dbEx with questions := List.replicate 15 qEx }, 15, false⟩ 0
    (Except.ok qEx2)).1.mpr (Or.inr (by decide))

/-- Claim C9: the sentiment label attached by `analyzeSentiment` is
`positive` exactly on scores at least 1/4, `negative` exactly on scores at
most -1/4, and `neutral` exactly in between. -/
theorem sentiment_label_thresholds (text : String) (api : ApiSentiment) (r : SentimentSummary)
    (h : analyzeSentiment text api = Except.ok r) :
    (r.label = "positive" ↔ r.score ≥ 1/4)
    ∧ (r.label = "negative" ↔ r.score ≤ -(1/4))
    ∧ (r.label = "neutral" ↔ (-(1/4) < r.score ∧ r.score < 1/4)) := by
  unfold analyzeSentiment at h
  split at h
  · cases h
  · rw [Except.ok.injEq] at h
    subst h
    simp only [getSentimentLabel]
    by_cases h1 : api.score ≥ 1/4
    · rw [if_pos h1]
      refine ⟨⟨fun _ => h1, fun _ => rfl⟩, ?_, ?_⟩
      · constructor
        · intro hs; exact absurd hs (by decide)
        · intro hs; exfalso; linarith
      · constructor
        · intro hs; exact absurd hs (by decide)
        · rintro ⟨_, h4⟩; exfalso; linarith
    · rw [if_neg h1]
      by_cases h2 : api.score ≤ -(1/4)
      · rw [if_pos h2]
        refine ⟨?_, ⟨fun _ => h2, fun _ => rfl⟩, ?_⟩
        · constructor
          · intro hs; exact absurd hs (by decide)
          · intro hs; exfalso; linarith
        · constructor
          · intro hs; exact absurd hs (by decide)
          · rintro ⟨h3, _⟩; exfalso; linarith
      · rw [if_neg h2]
        push_neg at h1 h2
        refine ⟨?_, ?_, ⟨fun _ => ⟨h2, h1⟩, fun _ => rfl⟩⟩
        · constructor
          · intro hs; exact absurd hs (by decide)
          · intro hs; exfalso; linarith
        · constructor
          · intro hs; exact absurd hs (by decide)
          · intro hs; exfalso; linarith

/-- Witness for C9 at a concrete score of 1/2. -/
theorem sentiment_label_thresholds_witness :
    analyzeSentiment "Good morning" ⟨1/2, 1⟩
      = Except.ok ⟨1/2, 1, getSentimentLabel (1/2), calculateConfidence (1/2) 1⟩
    ∧ (⟨1/2, 1, getSentimentLabel (1/2), calculateConfidence (1/2) 1⟩ : SentimentSummary).label
        = "positive" :=
  have h : analyzeSentiment "Good morning" ⟨1/2, 1⟩
      = Except.ok ⟨1/2, 1, getSentimentLabel (1/2), calculateConfidence (1/2) 1⟩ := by
    unfold analyzeSentiment
    rw [if_neg (by decide)]
  ⟨h, ((sentiment_label_thresholds "Good morning" ⟨1/2, 1⟩
      ⟨1/2, 1, getSentimentLabel (1/2), calculateConfidence (1/2) 1⟩ h).1).mpr (by norm_num)⟩

/-- Claim C10: `POST /start` rejects with 400 and writes nothing when the
requesting user already owns an in-progress interview, and therefore
preserves the invariant that a user owns at most one in-progress
interview. -/
theorem start_interview_at_most_one_ongoing (db : List Interview) (uid : Nat)
    (valid hasDaf : Bool) (iid dur : Nat) (now : Int) :
    (hasOngoing db uid = true →
      startInterview db uid valid hasDaf iid dur now = (db, 400))
    ∧ (countOngoing db uid ≤ 1 →
      countOngoing (startInterview db uid valid hasDaf iid dur now).1 uid ≤ 1) := by
  constructor
  · intro hg
    unfold startInterview
    rcases valid <;> rcases hasDaf <;> simp [hg]
  · intro hc
    unfold startInterview
    rcases valid <;> rcases hasDaf <;> simp [hc]
    by_cases hg : hasOngoing db uid
    · simpa [hg] using hc
    · have h0 : countOngoing db uid = 0 := by
        unfold countOngoing
        rw [List.length_eq_zero, List.filter_eq_nil_iff]
        intro a ha hdec
        refine hg ?_
        unfold hasOngoing
        rw [List.any_eq_true]
        exact ⟨a, ha, hdec⟩
      have hnew : countOngoing (db ++ [newInterview uid iid dur now]) uid
          = countOngoing db uid + 1 := by
        unfold countOngoing
        simp [List.filter_append, newInterview]
      simp [hg, hnew, h0]

/-- Claim C7 counterexample: `endInterview` carries no guard on
already-completed interviews.  After a first call at minute 10 has set
`status='completed'`, `endedAt=600000`, `actualDuration=10`, a second call
at minute 20 mutates the document again — `endedAt` becomes `1200000`,
`actualDuration` becomes `20` — and emits a summary whose duration differs
from the first call's, so the two summaries are not identical and state
was recomputed. -/
theorem end_interview_not_idempotent :
    c7One.1.db.status = InterviewStatus.completed
    ∧ c7One.1.db.endedAt = some 600000
    ∧ c7One.1.db.actualDuration = some 10
    ∧ c7One.2 = [Event.interviewEnded 1 0 10]
    ∧ c7Two.1.db.endedAt = some 1200000
    ∧ c7Two.1.db.actualDuration = some 20
    ∧ c7Two.2 = [Event.interviewEnded 1 0 20]
    ∧ c7Two.1.db ≠ c7One.1.db := by
  have h10 : jsRound (timeElapsedMinutes 0 600000) = 10 := by
    simp only [jsRound, timeElapsedMinutes_eq_div]
    norm_num
  have h20 : jsRound (timeElapsedMinutes 0 1200000) = 20 := by
    simp only [jsRound, timeElapsedMinutes_eq_div]
    norm_num
  refine ⟨?_, ?_, ?_, ?_, ?_, ?_, ?_, ?_⟩ <;>
    simp [c7One, c7Two, endInterviewRun, sessEx, dbEx, newInterview, h10, h20]

/-- Claim C7 (amended): `endInterview` is not guarded on completed
interviews; every call — including a repeated one — unconditionally sets
`status='completed'`, recomputes `endedAt` and `actualDuration` from its
own call time, and emits a fresh `interview_ended` whose question count
matches the first call's but whose duration reflects the second call's
time.  At the socket-event level a second `end_interview` is a no-op only
because the first call removed the session. -/
theorem end_interview_recomputes (st : OState) (s : Session) (now1 now2 : Int) :
    ((endInterviewRun st s now1).1.db.status = InterviewStatus.completed)
    ∧ ((endInterviewRun (endInterviewRun st s now1).1 s now2).1.db.status
        = InterviewStatus.completed)
    ∧ ((endInterviewRun (endInterviewRun st s now1).1 s now2).1.db.endedAt = some now2)
    ∧ ((endInterviewRun (endInterviewRun st s now1).1 s now2).1.db.actualDuration
        = some (jsRound (timeElapsedMinutes s.interview.startedAt now2)))
    ∧ ((endInterviewRun (endInterviewRun st s now1).1 s now2).2
        = [Event.interviewEnded s.interviewId
            (s.interview.questions.length + s.currentQuestionIndex)
            (jsRound (timeElapsedMinutes s.interview.startedAt now2))])
    ∧ (endRequest (endInterviewRun st s now1).1 now2 false
        = ((endInterviewRun st s now1).1, [])) :=
  ⟨rfl, rfl, rfl, rfl, rfl, rfl⟩

/-- Claim C8 counterexample: joining the zero-question interview `dbEx`
succeeds and emits `first_question` with `questionNumber = 1`, but the
stored session's `currentQuestionIndex` is `0` afterwards, not `1` —
`generateAndSendFirstQuestion` never updates the session. -/
theorem join_first_question_index_not_one :
    ((joinInterview ⟨7, dbEx, none⟩ 1 0 okJoinO).2 = [Event.firstQuestion qEx 1 "a"])
    ∧ (Option.map Session.currentQuestionIndex
        (joinInterview ⟨7, dbEx, none⟩ 1 0 okJoinO).1.session = some 0)
    ∧ (Option.map Session.currentQuestionIndex
        (joinInterview ⟨7, dbEx, none⟩ 1 0 okJoinO).1.session ≠ some 1) := by
  refine ⟨by decide, by decide, by decide⟩

/-- Claim C8 (amended): a successful join of a matching in-progress
interview with zero prior questions stores a session with
`isProcessing = false` and `currentQuestionIndex = 0` (the length of the
question sequence at join), generates, persists and emits the first
question with `questionNumber = 1` — and leaves `currentQuestionIndex`
at `0`; first-question generation does not modify the session. -/
theorem join_first_question (uid iid : Nat) (db : Interview) (now : Int) (o : JoinOracles)
    (hft : o.fetchThrow = false)
    (hid : db.id = iid) (huser : db.userId = uid) (hst : db.status = InterviewStatus.inProgress)
    (hq : db.questions = [])
    (q : Question) (hg : o.generateFirst = Except.ok q)
    (audio : String) (hsy : o.synthesizeFirst = Except.ok audio)
    (hpush : o.pushFirst = Except.ok ()) :
    joinInterview ⟨uid, db, none⟩ iid now o
      = (⟨uid, { db with questions := [q] }, some ⟨iid, uid, db, 0, false⟩⟩,
         [Event.firstQuestion q 1 audio]) := by
  simp [joinInterview, hft, hid, huser, hst, hq, generateAndSendFirstQuestion, hg, hsy, hpush]

/-- Witness for C8 at the concrete zero-question interview. -/
theorem join_first_question_witness :
    (dbEx.questions = [] ∧ okJoinO.fetchThrow = false ∧ okJoinO.generateFirst = Except.ok qEx) ∧
    joinInterview ⟨7, dbEx, none⟩ 1 0 okJoinO
      = (⟨7, { dbEx with questions := [qEx] }, some ⟨1, 7, dbEx, 0, false⟩⟩,
         [Event.firstQuestion qEx 1 "a"]) :=
  ⟨⟨rfl, rfl, rfl⟩,
   join_first_question 7 1 dbEx 0 okJoinO rfl rfl rfl rfl rfl qEx rfl "a" rfl rfl⟩

/-- Witness for C10 on a one-element collection holding an in-progress
interview of the requesting user. -/
theorem start_interview_at_most_one_ongoing_witness :
    (hasOngoing [newInterview 7 1 30 0] 7 = true
      ∧ startInterview [newInterview 7 1 30 0] 7 true true 2 30 5
          = ([newInterview 7 1 30 0], 400))
    ∧ (countOngoing [newInterview 7 1 30 0] 7 ≤ 1
      ∧ countOngoing (startInterview [newInterview 7 1 30 0] 7 true true 2 30 5).1 7 ≤ 1) :=
  ⟨⟨by decide, (start_interview_at_most_one_ongoing [newInterview 7 1 30 0] 7
      true true 2 30 5).1 (by decide)⟩,
   ⟨by decide, (start_interview_at_most_one_ongoing [newInterview 7 1 30 0] 7
      true true 2 30 5).2 (by decide)⟩⟩

/-- Claim C3: over every sequence of socket events for one session, the
persisted `questions` and `responses` sequences are append-only (hence
their lengths never decrease) and their lengths differ by at most one at
every observation point.  In fact `responses` is never appended to at all
— every `audio_response` handling aborts before the response push at
socketService.js line 151 — and `questions` grows only through
first-question generation, which fires only on an empty sequence, so from
a freshly created interview the counts stay within `{0, 1}` and `0`. -/
theorem interview_sequences_append_only :
    (∀ st op, DbExtends st.db (step st op).1.db)
    ∧ (∀ st op, st.db.questions.length ≤ (step st op).1.db.questions.length
          ∧ st.db.responses.length ≤ (step st op).1.db.responses.length)
    ∧ (∀ uid iid startedAt dur ops,
        (execState (initState uid iid startedAt dur) ops).db.questions.length
          ≤ (execState (initState uid iid startedAt dur) ops).db.responses.length + 1
        ∧ (execState (initState uid iid startedAt dur) ops).db.responses.length
          ≤ (execState (initState uid iid startedAt dur) ops).db.questions.length + 1) := by
  have hext : ∀ (st : OState) (op : Op), DbExtends st.db (step st op).1.db := by
    intro st op
    obtain ⟨⟨tq, hq⟩, hr, _⟩ := step_db st op
    exact ⟨⟨tq, hq⟩, ⟨[], by rw [hr, List.append_nil]⟩⟩
  refine ⟨hext, fun st op => ?_, fun uid iid startedAt dur ops => ?_⟩
  · obtain ⟨⟨tq, hq⟩, ⟨tr, hr⟩⟩ := hext st op
    constructor
    · rw [hq]; simp
    · rw [hr]; simp
  · obtain ⟨hr, hq⟩ := execState_inv ops (initState uid iid startedAt dur)
      (by simp [initState, newInterview]) (by simp [initState, newInterview])
    rw [hr]
    simp
    omega

/-- Claim C6 (evaluating the code at the failing input): on a quiescent
session whose interview has had fifteen questions asked, submitting the
answer to the fifteenth question one minute in, with the transcription
call resolving to its result record, does not end the interview: the
handler throws a `TypeError` at `transcription.trim()` (the resolved value
is the record `transcribeAudio` returns, not a string), lands in the catch
block, and emits only `processing_response{transcribing}` followed by
`error{Failed to process response}` — no `interview_ended`, no
`next_question`, no state change, and the interview stays `in_progress`
instead of becoming `completed`. -/
theorem fifteenth_answer_not_ended :
    db15.questions.length = 15
    ∧ c6Run.1 = ⟨7, db15, some sess15⟩
    ∧ c6Run.2 = [Event.processingResponse "transcribing",
                 Event.error "Failed to process response"]
    ∧ c6Run.2.any Event.isInterviewEnded = false
    ∧ c6Run.2.any Event.isNextQuestion = false
    ∧ c6Run.1.db.status = InterviewStatus.inProgress :=
  ⟨by decide, by decide, by decide, by decide, by decide, by decide⟩

end MockInterview
